import Mathlib

/-!
Verification of the `conf` configuration-resolution engine against its
natural-language specification.  The repository ships the engine's tests,
examples and format adapters; the engine itself (field walking, source
resolution, command-line lexing, usage and string rendering) is modelled
here from the specification document, and the properties claimed by the
specification are proved about that model.
-/

namespace Conf

/-! ## Field types and values -/

/-- Modelled from the spec: the scalar field kinds of §3 (scalar
string/int/bool) that the resolution engine coerces raw strings into.
The engine's duration/slice/custom kinds are not needed by the claims. -/
inductive Ty
  | tInt
  | tString
  | tBool
  deriving DecidableEq, BEq

/-- Modelled from the spec: a typed field value held in the configuration
structure (the in-memory value mutated in place by resolution, §3). -/
inductive Value
  | vInt (i : Int)
  | vStr (s : String)
  | vBool (b : Bool)
  deriving DecidableEq

/-- Modelled from the spec: the type's zero value (§4.3 uses "still the
type's zero value" as the trigger for defaults and required checks). -/
def zeroValue : Ty → Value
  | .tInt => .vInt 0
  | .tString => .vStr ""
  | .tBool => .vBool false

/-! ## Textual coercion (§4.4) -/

def isDigits (cs : List Char) : Bool :=
  !cs.isEmpty && cs.all (·.isDigit)

def natOfDigits (cs : List Char) : Nat :=
  cs.foldl (fun a c => a * 10 + (c.toNat - 48)) 0

/-- Modelled from the spec: standard textual parse of a signed integer
(§4.4 "scalar numeric/bool/string: standard textual parse"). -/
def parseIntStr (s : String) : Option Int :=
  match s.data with
  | '-' :: rest => if isDigits rest then some (-(natOfDigits rest : Int)) else none
  | cs => if isDigits cs then some ((natOfDigits cs : Int)) else none

/-- Modelled from the spec: standard textual parse of a boolean, accepting
the spellings of Go's strconv.ParseBool (the tests drive "TRUE"/"false"). -/
def parseBoolStr (s : String) : Option Bool :=
  if s = "1" ∨ s = "t" ∨ s = "T" ∨ s = "TRUE" ∨ s = "true" ∨ s = "True" then some true
  else if s = "0" ∨ s = "f" ∨ s = "F" ∨ s = "FALSE" ∨ s = "false" ∨ s = "False" then some false
  else none

/-- Modelled from the spec: type coercion of a resolved raw string into the
field's concrete type (§4.4); parse failure yields `none`. -/
def coerce : Ty → String → Option Value
  | .tString, s => some (.vStr s)
  | .tInt, s => (parseIntStr s).map .vInt
  | .tBool, s => (parseBoolStr s).map .vBool

/-! ## Field descriptors (§3, §4.2) -/

/-- Modelled from the spec: the per-field options parsed from the
annotation string (§4.2): default value, required, immutable, mask,
notzero.  Skip-marked fields are excluded before resolution (§3), so no
skip flag is carried here. -/
structure Options where
  default : Option String := none
  required : Bool := false
  immutable : Bool := false
  mask : Bool := false
  notzero : Bool := false
  deriving DecidableEq

/-- Modelled from the spec: a Field Descriptor (§3) with its derived flag
name, derived environment key, optional short alias, kind and options. -/
structure FieldSpec where
  flagName : String
  envKey : String
  short : Option Char := none
  ty : Ty
  opts : Options := {}
  deriving DecidableEq

/-- Modelled from the spec: the resolution-time error kinds of §7 that the
claims mention: type-coercion failure, missing-required-value and
zero-value-not-permitted, each naming the field. -/
inductive ResolveErr
  | badValue (field : String) (raw : String)
  | missingRequired (field : String)
  | zeroValue (field : String)
  deriving DecidableEq

/-! ## Source resolution engine (§4.3) -/

/-- Modelled from the spec: steps 1–2 of §4.3 — the current in-memory
value is the document-seeded baseline; the compiled default applies only
if that value is still the type's zero value. -/
def baseline (f : FieldSpec) (seed : Value) : Except ResolveErr Value :=
  if seed = zeroValue f.ty then
    match f.opts.default with
    | some d =>
      match coerce f.ty d with
      | some v => .ok v
      | none => .error (.badValue f.flagName d)
    | none => .ok seed
  else .ok seed

/-- Modelled from the spec: one later source consulted by §4.3 — it
overrides the prior value only if it reports a value was found. -/
def stepSource (f : FieldSpec) (cur : Value) (src : Option String) : Except ResolveErr Value :=
  match src with
  | none => .ok cur
  | some raw =>
    match coerce f.ty raw with
    | some v => .ok v
    | none => .error (.badValue f.flagName raw)

/-- Modelled from the spec: the post-resolution checks of §4.3 —
required fails only when the final value is zero, no default was supplied
and no source reported found; notzero fails whenever the final value is
the type's zero value. -/
def validate (f : FieldSpec) (found : Bool) (final : Value) : Except ResolveErr Value :=
  if f.opts.required = true ∧ final = zeroValue f.ty ∧ f.opts.default = none ∧ found = false then
    .error (.missingRequired f.flagName)
  else if f.opts.notzero = true ∧ final = zeroValue f.ty then
    .error (.zeroValue f.flagName)
  else .ok final

/-- Modelled from the spec: resolution of one field (§4.3) — baseline from
seed/default, then environment, then command-line flag, each later source
overriding when present; both are skipped entirely when the field is
immutable; then the required/notzero checks. -/
def resolveField (f : FieldSpec) (seed : Value) (env flag : Option String) :
    Except ResolveErr Value :=
  match baseline f seed with
  | .error e => .error e
  | .ok base =>
    if f.opts.immutable = true then
      validate f false base
    else
      match stepSource f base env with
      | .error e => .error e
      | .ok v1 =>
        match stepSource f v1 flag with
        | .error e => .error e
        | .ok v2 => validate f (env.isSome || flag.isSome) v2

/-! ## Command-line lexing (§6) -/

/-- Splits a token body at the first `=`: the part before it and, when an
`=` is present, the part after it. -/
def splitEq : List Char → List Char × Option (List Char)
  | [] => ([], none)
  | c :: cs =>
    if c = '=' then ([], some cs)
    else
      let p := splitEq cs
      (c :: p.1, p.2)

/-- The characters of the literal raw value recorded for a bare boolean
flag. -/
def trueChars : List Char := ['t', 'r', 'u', 'e']

/-- Modelled from the spec: recognizes a flag token (§6, long form
`--flag-name[=value]` or short form `-x[=value]`), returning the token
body with the leading dashes stripped; non-flag tokens yield `none`. -/
def flagBody : List Char → Option (List Char)
  | [] => none
  | c :: tr =>
    if c = '-' then
      match tr with
      | c2 :: tr2 => if c2 = '-' then some tr2 else some tr
      | [] => some tr
    else none

/-- Modelled from the spec: command-line lexing (§6): flag tokens carry an
explicit `=value` or, for booleans, stand alone meaning `true`; a
non-boolean bare flag consumes the next token as its value; every other
token is a positional argument.  Returns the flag assignments and the
positional tokens in order. -/
def parseArgs (isBool : List Char → Bool) :
    List (List Char) → List (List Char × List Char) × List (List Char)
  | [] => ([], [])
  | t :: rest =>
    match flagBody t with
    | none =>
      let p := parseArgs isBool rest
      (p.1, t :: p.2)
    | some nv =>
      match splitEq nv with
      | (n, some v) =>
        let p := parseArgs isBool rest
        ((n, v) :: p.1, p.2)
      | (n, none) =>
        if isBool n then
          let p := parseArgs isBool rest
          ((n, trueChars) :: p.1, p.2)
        else
          match rest with
          | [] => ([(n, [])], [])
          | w :: rest2 =>
            let p := parseArgs isBool rest2
            ((n, w) :: p.1, p.2)

/-! ## Map fields (§4.1) -/

/-- Modelled from the spec: the derived sub-path of one existing key of a
map-typed field (§4.1: `parent-path + "-" + key`). -/
def subKey (parent key : String) : String := parent ++ "-" ++ key

/-- Modelled from the spec: per-key override of a non-empty map field
(§4.1): each key that already exists in the initial map may be overridden
independently under its derived sub-path; keys absent from the initial map
are never synthesized by an override. -/
def overrideMap (look : String → Option String) (parent : String)
    (m : List (String × String)) : List (String × String) :=
  m.map (fun kv => (kv.1, (look (subKey parent kv.1)).getD kv.2))

/-! ## String renderer (§4.5) -/

/-- The fixed redaction marker substituted for masked values. -/
def maskMarker : String := "xxxxxx"

/-- Textual form of an in-memory value as the String renderer prints it. -/
def showValue : Value → String
  | .vInt i => toString i
  | .vStr s => s
  | .vBool b => if b then "true" else "false"

/-- Modelled from the spec: one line of the String renderer (§4.5) — it
reads only the already-resolved in-memory value, substituting the fixed
redaction marker for every field with Options.mask. -/
def stringLine (f : FieldSpec) (v : Value) : String :=
  "--" ++ f.flagName ++ "=" ++ (if f.opts.mask then maskMarker else showValue v)

/-- Modelled from the spec: the String renderer (§4.5) — one
`--flag=value` line per non-skipped field, reading only the resolved
in-memory values. -/
def stringRender (fields : List (FieldSpec × Value)) : List String :=
  fields.map (fun fv => stringLine fv.1 fv.2)

/-! ## Usage renderer (§4.5) -/

/-- The expected-value placeholder of a field kind in usage rows. -/
def placeholderOf : Ty → String
  | .tInt => "<int>"
  | .tString => "<string>"
  | .tBool => "<bool>"

/-- Modelled from the spec: the default note of a usage row (§4.5); for
masked fields the redaction marker replaces the default value in it. -/
def defaultNote (o : Options) : String :=
  match o.default with
  | some d => if o.mask then "(default: xxxxxx)" else "(default: " ++ d ++ ")"
  | none => ""

/-- The short-alias column of a usage row. -/
def shortPart : Option Char → String
  | some c => "-" ++ String.mk [c] ++ ", "
  | none => "    "

/-- One row of the usage flag table. -/
structure UsageRow where
  short : Option Char
  flag : String
  placeholder : String
  note : String
  helpText : String
  deriving DecidableEq

/-- Modelled from the spec: the flag-table row of one non-skipped field
(§4.5): short alias, long flag, value placeholder by kind, default note. -/
def optionRow (f : FieldSpec) : UsageRow :=
  { short := f.short, flag := f.flagName, placeholder := placeholderOf f.ty,
    note := defaultNote f.opts, helpText := "" }

/-- The synthesized help row, keyed by its flag letters. -/
def helpRow : UsageRow :=
  { short := some 'h', flag := "help", placeholder := "", note := "",
    helpText := "display this help message" }

/-- The synthesized version row, keyed by its flag letters. -/
def versionRow : UsageRow :=
  { short := some 'v', flag := "version", placeholder := "", note := "",
    helpText := "display version" }

/-- Ordering of usage rows: alphabetically by derived flag name. -/
def rowLE (a b : UsageRow) : Prop := a.flag ≤ b.flag

instance : DecidableRel rowLE := fun a b =>
  inferInstanceAs (Decidable (a.flag ≤ b.flag))

instance : IsTotal UsageRow rowLE := ⟨fun a b => le_total a.flag b.flag⟩

instance : IsTrans UsageRow rowLE := ⟨fun _ _ _ h1 h2 => le_trans h1 h2⟩

/-- Modelled from the spec: the usage table rows (§4.5) — one row per
field plus the synthesized help row and, when a Version descriptor is
present, the version row, all sorted together alphabetically by flag name
so the synthesized rows interleave at their natural position. -/
def usageRows (fields : List FieldSpec) (hasVersion : Bool) : List UsageRow :=
  List.insertionSort rowLE
    (fields.map optionRow ++ helpRow :: (if hasVersion then [versionRow] else []))

/-- The rendered text of one usage row. -/
def renderRow (r : UsageRow) : String :=
  "  " ++ shortPart r.short ++ "--" ++ r.flag ++ "  " ++ r.placeholder ++ "  "
    ++ r.note ++ "  " ++ r.helpText

/-- The namespaced environment key of a field (§6). -/
def envKeyFull (ns : String) (f : FieldSpec) : String :=
  if ns = "" then f.envKey else ns ++ "_" ++ f.envKey

/-- Modelled from the spec: the OPTIONS-table line of one field. -/
def optionRowText (f : FieldSpec) : String :=
  shortPart f.short ++ "--" ++ f.flagName ++ "  " ++ placeholderOf f.ty ++ "  "
    ++ defaultNote f.opts

/-- Modelled from the spec: the ENVIRONMENT-table line of one field
(§4.5: namespaced env key with the same value/default notes). -/
def envRowText (ns : String) (f : FieldSpec) : String :=
  envKeyFull ns f ++ "  " ++ placeholderOf f.ty ++ "  " ++ defaultNote f.opts

/-- The first line of the rendered usage text. -/
def usageHeader : String := "Usage: [options...] [arguments...]"

/-- Modelled from the spec: the rendered usage text (§4.5) — header, the
sorted OPTIONS table, and the ENVIRONMENT table. -/
def usageText (ns : String) (fields : List FieldSpec) (hasVersion : Bool) : String :=
  usageHeader ++ "\n\nOPTIONS\n"
    ++ String.intercalate "\n" ((usageRows fields hasVersion).map renderRow)
    ++ "\n\nENVIRONMENT\n"
    ++ String.intercalate "\n" (fields.map (envRowText ns))

/-! ## Parse entry point (§6, §7) -/

/-- Whether a lexed flag name addresses a field, by long flag name or
short alias. -/
def matchesFlag (f : FieldSpec) (n : List Char) : Bool :=
  (n == f.flagName.data) ||
    (match f.short with
     | some c => n == [c]
     | none => false)

/-- Flag lookup for a field among the lexed command-line assignments. -/
def flagLookup (assigns : List (List Char × List Char)) (f : FieldSpec) :
    Option String :=
  (assigns.find? (fun a => matchesFlag f a.1)).map (fun a => String.mk a.2)

/-- Whether a lexed flag name denotes a boolean-typed field. -/
def isBoolIn (fs : List FieldSpec) (n : List Char) : Bool :=
  fs.any (fun f => matchesFlag f n && (f.ty == Ty.tBool))

/-- Resolution of every field in declaration order (§4.3); any error
aborts the whole parse call — there is no partial success (§7). -/
def resolveAll (ns : String) (env : String → Option String)
    (assigns : List (List Char × List Char)) :
    List (FieldSpec × Value) → Except ResolveErr (List (FieldSpec × Value))
  | [] => .ok []
  | (f, seed) :: rest =>
    match resolveField f seed (env (envKeyFull ns f)) (flagLookup assigns f) with
    | .error e => .error e
    | .ok v =>
      match resolveAll ns env assigns rest with
      | .error e => .error e
      | .ok vs => .ok ((f, v) :: vs)

/-- Outcome of a parse call: a fully resolved configuration, the
help/version sentinels paired with rendered text and the untouched
configuration, or a fatal error (§6, §7). -/
inductive ParseResult
  | resolved (fields : List (FieldSpec × Value))
  | helpWanted (text : String) (fields : List (FieldSpec × Value))
  | versionWanted (text : String) (fields : List (FieldSpec × Value))
  | failed (e : ResolveErr)

/-- Modelled from the spec: the parse entry point (§6): `--help`/`-h`
short-circuits resolution and returns the rendered usage text with the
help sentinel and the configuration untouched; likewise `--version`/`-v`
when a Version descriptor is present; otherwise the command line is lexed
and every field is resolved against its seed, its default, the
environment and the flags. -/
def parseConfig (ns : String) (fields : List (FieldSpec × Value))
    (env : String → Option String) (args : List (List Char))
    (hasVersion : Bool) (verText : String) : ParseResult :=
  if "--help".data ∈ args ∨ "-h".data ∈ args then
    .helpWanted (usageText ns (fields.map Prod.fst) hasVersion) fields
  else if hasVersion = true ∧ ("--version".data ∈ args ∨ "-v".data ∈ args) then
    .versionWanted verText fields
  else
    match resolveAll ns env (parseArgs (isBoolIn (fields.map Prod.fst)) args).1 fields with
    | .ok fs => .resolved fs
    | .error e => .failed e

end Conf

namespace Conf

/-! ## Helper lemmas -/

theorem splitEq_of_no_eq (cs : List Char) (h : '=' ∉ cs) : splitEq cs = (cs, none) := by
  induction cs with
  | nil => rfl
  | cons c cs ih =>
    simp only [List.mem_cons, not_or] at h
    rw [splitEq, if_neg (fun hc => h.1 hc.symm), ih h.2]

theorem splitEq_append_eq (n v : List Char) (h : '=' ∉ n) :
    splitEq (n ++ '=' :: v) = (n, some v) := by
  induction n with
  | nil => simp [splitEq]
  | cons c cs ih =>
    simp only [List.mem_cons, not_or] at h
    rw [List.cons_append, splitEq, if_neg (fun hc => h.1 hc.symm), ih h.2]

theorem flagBody_long (n : List Char) : flagBody ('-' :: '-' :: n) = some n := by
  simp [flagBody]

theorem flagBody_short (c : Char) (tr : List Char) (hc : c ≠ '-') :
    flagBody ('-' :: c :: tr) = some (c :: tr) := by
  simp [flagBody, hc]

theorem parseArgs_positional (isBool : List Char → Bool) (w : List Char)
    (rest : List (List Char)) (hw : flagBody w = none) :
    parseArgs isBool (w :: rest) =
      ((parseArgs isBool rest).1, w :: (parseArgs isBool rest).2) := by
  simp only [parseArgs, hw]

/-! ## Claim C1: source precedence -/

/-- C1: for a field with compiled default D, environment value E and
command-line flag value F all present, the final value is F; with only D
and E present it is E; with only D present it is D — sources are consulted
in increasing precedence default < env < flag. -/
theorem precedence_law (name ek : String) (ty : Ty) (d e g : String)
    (vd ve vg : Value)
    (hd : coerce ty d = some vd) (he : coerce ty e = some ve)
    (hg : coerce ty g = some vg) :
    (resolveField ⟨name, ek, none, ty, ⟨some d, false, false, false, false⟩⟩
      (zeroValue ty) (some e) (some g) = .ok vg) ∧
    (resolveField ⟨name, ek, none, ty, ⟨some d, false, false, false, false⟩⟩
      (zeroValue ty) (some e) none = .ok ve) ∧
    (resolveField ⟨name, ek, none, ty, ⟨some d, false, false, false, false⟩⟩
      (zeroValue ty) none none = .ok vd) := by
  refine ⟨?_, ?_, ?_⟩ <;>
    simp [resolveField, baseline, stepSource, validate, hd, he, hg]

/-- Witness for C1 at a concrete field: an int field with default "9",
env "1" and flag "2" resolves to 2; default plus env resolves to 1;
default alone resolves to 9. -/
theorem precedence_law_witness :
    (resolveField ⟨"an-int", "AN_INT", none, .tInt, ⟨some "9", false, false, false, false⟩⟩
      (zeroValue .tInt) (some "1") (some "2") = .ok (.vInt 2)) ∧
    (resolveField ⟨"an-int", "AN_INT", none, .tInt, ⟨some "9", false, false, false, false⟩⟩
      (zeroValue .tInt) (some "1") none = .ok (.vInt 1)) ∧
    (resolveField ⟨"an-int", "AN_INT", none, .tInt, ⟨some "9", false, false, false, false⟩⟩
      (zeroValue .tInt) none none = .ok (.vInt 9)) :=
  precedence_law "an-int" "AN_INT" .tInt "9" "1" "2"
    (.vInt 9) (.vInt 1) (.vInt 2) (by decide) (by decide) (by decide)

/-! ## Claim C2: required fields -/

/-- C2: a required field with no default that is absent from every source
fails with the missing-required error naming the field; the same field
explicitly set by some source — even to the type's zero value, as in env
"0", "" or "false" — succeeds with that value. -/
theorem required_law (name ek : String) (ty : Ty) (s : String) (v : Value)
    (hs : coerce ty s = some v) :
    (resolveField ⟨name, ek, none, ty, ⟨none, true, false, false, false⟩⟩
      (zeroValue ty) none none = .error (.missingRequired name)) ∧
    (resolveField ⟨name, ek, none, ty, ⟨none, true, false, false, false⟩⟩
      (zeroValue ty) (some s) none = .ok v) ∧
    (resolveField ⟨name, ek, none, ty, ⟨none, true, false, false, false⟩⟩
      (zeroValue ty) none (some s) = .ok v) := by
  refine ⟨?_, ?_, ?_⟩ <;>
    simp [resolveField, baseline, stepSource, validate, hs]

/-- Witness for C2: a required int field absent everywhere fails with
missing-required; the same field set to "0" by the environment or the
flag resolves to the explicit zero 0. -/
theorem required_law_witness :
    (resolveField ⟨"test-int", "TEST_INT", none, .tInt, ⟨none, true, false, false, false⟩⟩
      (zeroValue .tInt) none none = .error (.missingRequired "test-int")) ∧
    (resolveField ⟨"test-int", "TEST_INT", none, .tInt, ⟨none, true, false, false, false⟩⟩
      (zeroValue .tInt) (some "0") none = .ok (.vInt 0)) ∧
    (resolveField ⟨"test-int", "TEST_INT", none, .tInt, ⟨none, true, false, false, false⟩⟩
      (zeroValue .tInt) none (some "0") = .ok (.vInt 0)) :=
  required_law "test-int" "TEST_INT" .tInt "0" (.vInt 0) (by decide)

/-! ## Claim C3: immutable fields -/

/-- C3: for an immutable field with default D, any env or flag value
supplied is ignored without error — from a zero seed the final value is
always D, and from a non-zero document-seeded value it is that seed. -/
theorem immutable_law (name ek d : String) (ty : Ty) (vd : Value)
    (hd : coerce ty d = some vd) (env flag : Option String) (seed : Value) :
    (resolveField ⟨name, ek, none, ty, ⟨some d, false, true, false, false⟩⟩
      (zeroValue ty) env flag = .ok vd) ∧
    (seed ≠ zeroValue ty →
      resolveField ⟨name, ek, none, ty, ⟨some d, false, true, false, false⟩⟩
        seed env flag = .ok seed) := by
  constructor
  · simp [resolveField, baseline, stepSource, validate, hd]
  · intro hseed
    simp [resolveField, baseline, stepSource, validate, hseed]

/-- Witness for C3: an immutable string field with default
"mydefaultvalue" ignores both the env value and the flag value "change",
and a document-seeded value "fromdoc" survives both overrides. -/
theorem immutable_law_witness :
    (resolveField ⟨"immutable", "IMMUTABLE", none, .tString,
        ⟨some "mydefaultvalue", false, true, false, false⟩⟩
      (zeroValue .tString) (some "change") (some "change")
        = .ok (.vStr "mydefaultvalue")) ∧
    (Value.vStr "fromdoc" ≠ zeroValue .tString →
      resolveField ⟨"immutable", "IMMUTABLE", none, .tString,
          ⟨some "mydefaultvalue", false, true, false, false⟩⟩
        (.vStr "fromdoc") (some "change") (some "change") = .ok (.vStr "fromdoc")) :=
  immutable_law "immutable" "IMMUTABLE" "mydefaultvalue" .tString
    (.vStr "mydefaultvalue") (by decide) (some "change") (some "change") (.vStr "fromdoc")

/-! ## Claim C4: notzero fields -/

/-- C4: a notzero field whose final resolved value is the type's zero
value fails with the zero-value error naming the field, whether that zero
came from absence across all sources or from an explicit source value. -/
theorem notzero_law (name ek : String) (ty : Ty) (s : String)
    (hz : coerce ty s = some (zeroValue ty)) :
    (resolveField ⟨name, ek, none, ty, ⟨none, false, false, false, true⟩⟩
      (zeroValue ty) none none = .error (.zeroValue name)) ∧
    (resolveField ⟨name, ek, none, ty, ⟨none, false, false, false, true⟩⟩
      (zeroValue ty) (some s) none = .error (.zeroValue name)) ∧
    (resolveField ⟨name, ek, none, ty, ⟨none, false, false, false, true⟩⟩
      (zeroValue ty) none (some s) = .error (.zeroValue name)) := by
  refine ⟨?_, ?_, ?_⟩ <;>
    simp [resolveField, baseline, stepSource, validate, hz]

/-- Witness for C4: a notzero int field absent from every source fails
with the zero-value error, and the same field explicitly set to "0" by the
environment or the flag also fails. -/
theorem notzero_law_witness :
    (resolveField ⟨"g", "G", none, .tInt, ⟨none, false, false, false, true⟩⟩
      (zeroValue .tInt) none none = .error (.zeroValue "g")) ∧
    (resolveField ⟨"g", "G", none, .tInt, ⟨none, false, false, false, true⟩⟩
      (zeroValue .tInt) (some "0") none = .error (.zeroValue "g")) ∧
    (resolveField ⟨"g", "G", none, .tInt, ⟨none, false, false, false, true⟩⟩
      (zeroValue .tInt) none (some "0") = .error (.zeroValue "g")) :=
  notzero_law "g" "G" .tInt "0" (by decide)

/-! ## Claim C5: boolean flags -/

/-- C5: a boolean flag supplied without an explicit `=value` suffix — long
`--flag` or short `-x` form — records the value true and does not consume
the following token, which remains a positional argument; an explicit
`=value` suffix records that value instead; and the raw value "true"
coerces the boolean field to true. -/
theorem bool_flag_law (isBool : List Char → Bool) (n w v : List Char)
    (c : Char) (rest : List (List Char)) (name ek : String)
    (hb : isBool n = true) (hn : '=' ∉ n) (hw : flagBody w = none)
    (hc : c ≠ '-') (hc2 : isBool [c] = true) (hc3 : c ≠ '=') :
    (parseArgs isBool (('-' :: '-' :: n) :: w :: rest) =
      ((n, trueChars) :: (parseArgs isBool rest).1, w :: (parseArgs isBool rest).2)) ∧
    (parseArgs isBool (('-' :: c :: []) :: w :: rest) =
      (([c], trueChars) :: (parseArgs isBool rest).1, w :: (parseArgs isBool rest).2)) ∧
    (parseArgs isBool (('-' :: '-' :: (n ++ '=' :: v)) :: w :: rest) =
      ((n, v) :: (parseArgs isBool (w :: rest)).1, (parseArgs isBool (w :: rest)).2)) ∧
    (resolveField ⟨name, ek, none, .tBool, ⟨none, false, false, false, false⟩⟩
      (zeroValue .tBool) none (some (String.mk trueChars)) = .ok (.vBool true)) := by
  refine ⟨?_, ?_, ?_, ?_⟩
  · rw [parseArgs, flagBody_long]
    simp only [splitEq_of_no_eq n hn, hb, if_true, parseArgs_positional isBool w rest hw]
  · rw [parseArgs, flagBody_short c [] hc]
    simp only [splitEq_of_no_eq [c] (by simpa using Ne.symm hc3), hc2, if_true,
      parseArgs_positional isBool w rest hw]
  · rw [parseArgs, flagBody_long]
    simp only [splitEq_append_eq n v hn]
  · have : coerce .tBool (String.mk trueChars) = some (.vBool true) := by decide
    simp [resolveField, baseline, stepSource, validate, this]

/-- Witness for C5: with a boolean flag named "bool" (short alias 'b'),
the command line `--bool extra` records bool=true and keeps "extra"
positional, `-b extra` does the same, and `--bool=false extra` records the
explicit value "false". -/
theorem bool_flag_law_witness :
    (parseArgs (fun l => l == "bool".data || l == "b".data)
        (("--bool".data) :: ("extra".data) :: []) =
      (("bool".data, trueChars) ::
        (parseArgs (fun l => l == "bool".data || l == "b".data) []).1,
       "extra".data ::
        (parseArgs (fun l => l == "bool".data || l == "b".data) []).2)) ∧
    (parseArgs (fun l => l == "bool".data || l == "b".data)
        (("-b".data) :: ("extra".data) :: []) =
      (("b".data, trueChars) ::
        (parseArgs (fun l => l == "bool".data || l == "b".data) []).1,
       "extra".data ::
        (parseArgs (fun l => l == "bool".data || l == "b".data) []).2)) ∧
    (parseArgs (fun l => l == "bool".data || l == "b".data)
        (("--bool=false".data) :: ("extra".data) :: []) =
      (("bool".data, "false".data) ::
        (parseArgs (fun l => l == "bool".data || l == "b".data)
          (("extra".data) :: [])).1,
       (parseArgs (fun l => l == "bool".data || l == "b".data)
          (("extra".data) :: [])).2)) ∧
    (resolveField ⟨"bool", "BOOL", none, .tBool, ⟨none, false, false, false, false⟩⟩
      (zeroValue .tBool) none (some (String.mk trueChars)) = .ok (.vBool true)) :=
  bool_flag_law (fun l => l == "bool".data || l == "b".data)
    "bool".data "extra".data "false".data 'b' [] "bool" "BOOL"
    (by decide) (by decide) (by decide) (by decide) (by decide) (by decide)

/-! ## Claim C6: map partial override -/

/-- C6: for a map-typed field, an override addressed to an existing key
under the derived sub-path parent-path ++ "-" ++ key replaces only that
key's value; entries whose sub-path has no override keep their value; the
key set of the map is preserved, so a key absent from the initial map is
never introduced by an override. -/
theorem map_override_law (look : String → Option String) (parent : String)
    (m : List (String × String)) :
    ((overrideMap look parent m).map Prod.fst = m.map Prod.fst) ∧
    (∀ k v, (k, v) ∈ m → look (subKey parent k) = none →
      (k, v) ∈ overrideMap look parent m) ∧
    (∀ k v w, (k, v) ∈ m → look (subKey parent k) = some w →
      (k, w) ∈ overrideMap look parent m) ∧
    (∀ k, k ∉ m.map Prod.fst → k ∉ (overrideMap look parent m).map Prod.fst) := by
  have hkeys : (overrideMap look parent m).map Prod.fst = m.map Prod.fst := by
    simp [overrideMap, List.map_map]
  refine ⟨hkeys, ?_, ?_, ?_⟩
  · intro k v hm hl
    simp only [overrideMap, List.mem_map]
    exact ⟨(k, v), hm, by simp [hl]⟩
  · intro k v w hm hl
    simp only [overrideMap, List.mem_map]
    exact ⟨(k, v), hm, by simp [hl]⟩
  · intro k hk
    rw [hkeys]
    exact hk

/-- Witness for C6: for the map with entries env ↦ staging and
region ↦ us-east and an override for sub-path "labels-env" only, the key
set is unchanged, env is replaced by "production" and region keeps
"us-east". -/
theorem map_override_law_witness :
    ((overrideMap (fun s => if s = "labels-env" then some "production" else none)
        "labels" [("env", "staging"), ("region", "us-east")]).map Prod.fst =
      ([("env", "staging"), ("region", "us-east")] :
        List (String × String)).map Prod.fst) ∧
    (("region", "us-east") ∈
      overrideMap (fun s => if s = "labels-env" then some "production" else none)
        "labels" [("env", "staging"), ("region", "us-east")]) ∧
    (("env", "production") ∈
      overrideMap (fun s => if s = "labels-env" then some "production" else none)
        "labels" [("env", "staging"), ("region", "us-east")]) :=
  ⟨(map_override_law (fun s => if s = "labels-env" then some "production" else none)
      "labels" [("env", "staging"), ("region", "us-east")]).1,
   (map_override_law (fun s => if s = "labels-env" then some "production" else none)
      "labels" [("env", "staging"), ("region", "us-east")]).2.1
      "region" "us-east" (by decide) (by decide),
   (map_override_law (fun s => if s = "labels-env" then some "production" else none)
      "labels" [("env", "staging"), ("region", "us-east")]).2.2.1
      "env" "staging" "production" (by decide) (by decide)⟩

/-! ## Claim C7: help short-circuit -/

theorem data_append (a b : String) : (a ++ b).data = a.data ++ b.data := by
  cases a; cases b; rfl

/-- C7: when `--help` is supplied on the command line, the parse call
returns the help-wanted sentinel outcome paired with the non-empty
rendered usage text, short-circuiting resolution so that the configuration
is returned unmodified. -/
theorem help_law (ns : String) (fields : List (FieldSpec × Value))
    (env : String → Option String) (args : List (List Char))
    (hasVersion : Bool) (verText : String)
    (h : "--help".data ∈ args) :
    (parseConfig ns fields env args hasVersion verText =
      .helpWanted (usageText ns (fields.map Prod.fst) hasVersion) fields) ∧
    usageText ns (fields.map Prod.fst) hasVersion ≠ "" := by
  constructor
  · simp [parseConfig, h]
  · intro hempty
    have hd : (usageText ns (fields.map Prod.fst) hasVersion).data = [] := by
      rw [hempty]
    rw [usageText] at hd
    simp only [data_append, List.append_eq_nil] at hd
    have hne : usageHeader.data ≠ [] := by decide
    exact hne hd.1.1.1.1

/-- Witness for C7: a parse call over one int field with `--help` on the
command line returns the help sentinel with the untouched field list and
the usage text is non-empty. -/
theorem help_law_witness :
    (parseConfig "TEST"
        [(⟨"port", "PORT", none, .tInt, ⟨none, false, false, false, false⟩⟩,
          zeroValue .tInt)]
        (fun _ => none) ["--help".data] false "" =
      .helpWanted
        (usageText "TEST"
          ([(⟨"port", "PORT", none, .tInt, ⟨none, false, false, false, false⟩⟩,
            zeroValue .tInt)].map Prod.fst) false)
        [(⟨"port", "PORT", none, .tInt, ⟨none, false, false, false, false⟩⟩,
          zeroValue .tInt)]) ∧
    usageText "TEST"
      ([(⟨"port", "PORT", none, .tInt, ⟨none, false, false, false, false⟩⟩,
        zeroValue .tInt)].map Prod.fst) false ≠ "" :=
  help_law "TEST"
    [(⟨"port", "PORT", none, .tInt, ⟨none, false, false, false, false⟩⟩,
      zeroValue .tInt)]
    (fun _ => none) ["--help".data] false "" (by simp)

/-! ## Claim C8: masked string rendering -/

/-- C8: the String renderer emits, for every field in the resolved
configuration, a `--flag=value` line built from the already-resolved
in-memory value: the fixed redaction marker replaces the value for a
field tagged mask, and the actual resolved value appears otherwise. -/
theorem mask_render_law (fields : List (FieldSpec × Value)) (f : FieldSpec)
    (v : Value) (hm : (f, v) ∈ fields) :
    (f.opts.mask = true →
      ("--" ++ f.flagName ++ "=" ++ maskMarker) ∈ stringRender fields) ∧
    (f.opts.mask = false →
      ("--" ++ f.flagName ++ "=" ++ showValue v) ∈ stringRender fields) := by
  constructor
  · intro h
    simp only [stringRender, List.mem_map]
    exact ⟨(f, v), hm, by simp [stringLine, h]⟩
  · intro h
    simp only [stringRender, List.mem_map]
    exact ⟨(f, v), hm, by simp [stringLine, h]⟩

/-- Witness for C8: rendering a masked password field holding "gopher"
emits `--password=xxxxxx`, and an unmasked host field holding "localhost"
emits `--host=localhost`. -/
theorem mask_render_law_witness :
    (("--" ++ "password" ++ "=" ++ maskMarker) ∈ stringRender
      [(⟨"password", "PASSWORD", none, .tString, ⟨some "password", false, false, true, false⟩⟩,
        Value.vStr "gopher"),
       (⟨"host", "HOST", none, .tString, ⟨none, false, false, false, false⟩⟩,
        Value.vStr "localhost")]) ∧
    (("--" ++ "host" ++ "=" ++ showValue (Value.vStr "localhost")) ∈ stringRender
      [(⟨"password", "PASSWORD", none, .tString, ⟨some "password", false, false, true, false⟩⟩,
        Value.vStr "gopher"),
       (⟨"host", "HOST", none, .tString, ⟨none, false, false, false, false⟩⟩,
        Value.vStr "localhost")]) :=
  ⟨(mask_render_law
      [(⟨"password", "PASSWORD", none, .tString, ⟨some "password", false, false, true, false⟩⟩,
        Value.vStr "gopher"),
       (⟨"host", "HOST", none, .tString, ⟨none, false, false, false, false⟩⟩,
        Value.vStr "localhost")]
      ⟨"password", "PASSWORD", none, .tString, ⟨some "password", false, false, true, false⟩⟩
      (Value.vStr "gopher") (by decide)).1 rfl,
   (mask_render_law
      [(⟨"password", "PASSWORD", none, .tString, ⟨some "password", false, false, true, false⟩⟩,
        Value.vStr "gopher"),
       (⟨"host", "HOST", none, .tString, ⟨none, false, false, false, false⟩⟩,
        Value.vStr "localhost")]
      ⟨"host", "HOST", none, .tString, ⟨none, false, false, false, false⟩⟩
      (Value.vStr "localhost") (by decide)).2 rfl⟩

/-! ## Claim C9: usage row ordering -/

/-- C9: the usage table rows are sorted alphabetically by derived flag
name, and they are exactly the per-field rows together with the
synthesized help row and — when a Version descriptor is present — the
version row, so the synthesized rows are interleaved at their natural
alphabetical position by their flag letters. -/
theorem usage_sort_law (fields : List FieldSpec) (hasVersion : Bool) :
    ((usageRows fields hasVersion).Sorted rowLE) ∧
    (List.Perm (usageRows fields hasVersion)
      (fields.map optionRow ++ helpRow :: (if hasVersion then [versionRow] else []))) ∧
    (helpRow ∈ usageRows fields hasVersion) ∧
    (hasVersion = true → versionRow ∈ usageRows fields hasVersion) := by
  refine ⟨List.sorted_insertionSort rowLE _, List.perm_insertionSort rowLE _, ?_, ?_⟩
  · simp [usageRows]
  · intro hv
    simp [usageRows, hv]

/-- Witness for C9: for two fields named "e-dur" and "immutable" with a
Version descriptor present, the rows are sorted, are a permutation of the
field rows plus the help and version rows, and both synthesized rows are
present. -/
theorem usage_sort_law_witness :
    ((usageRows [⟨"e-dur", "DURATION", some 'd', .tInt,
        ⟨some "1", false, false, false, false⟩⟩,
      ⟨"immutable", "IMMUTABLE", none, .tString,
        ⟨some "mydefaultvalue", false, true, false, false⟩⟩] true).Sorted rowLE) ∧
    (List.Perm (usageRows [⟨"e-dur", "DURATION", some 'd', .tInt,
        ⟨some "1", false, false, false, false⟩⟩,
      ⟨"immutable", "IMMUTABLE", none, .tString,
        ⟨some "mydefaultvalue", false, true, false, false⟩⟩] true)
      (([⟨"e-dur", "DURATION", some 'd', .tInt,
          ⟨some "1", false, false, false, false⟩⟩,
        ⟨"immutable", "IMMUTABLE", none, .tString,
          ⟨some "mydefaultvalue", false, true, false, false⟩⟩] :
            List FieldSpec).map optionRow
        ++ helpRow :: (if true then [versionRow] else []))) ∧
    (helpRow ∈ usageRows [⟨"e-dur", "DURATION", some 'd', .tInt,
        ⟨some "1", false, false, false, false⟩⟩,
      ⟨"immutable", "IMMUTABLE", none, .tString,
        ⟨some "mydefaultvalue", false, true, false, false⟩⟩] true) ∧
    (versionRow ∈ usageRows [⟨"e-dur", "DURATION", some 'd', .tInt,
        ⟨some "1", false, false, false, false⟩⟩,
      ⟨"immutable", "IMMUTABLE", none, .tString,
        ⟨some "mydefaultvalue", false, true, false, false⟩⟩] true) :=
  ⟨(usage_sort_law _ true).1, (usage_sort_law _ true).2.1,
   (usage_sort_law _ true).2.2.1, (usage_sort_law _ true).2.2.2 rfl⟩

/-! ## Claim C10: masked defaults in usage text -/

/-- C10: for a field tagged mask that has a default value, both the
OPTIONS-table line and the ENVIRONMENT-table line of the usage text carry
the redaction marker in their default note — the rendered lines are fully
determined without the actual default value, so the secret default never
appears in help output. -/
theorem mask_default_usage_law (ns : String) (f : FieldSpec) (d : String)
    (h1 : f.opts.mask = true) (h2 : f.opts.default = some d) :
    (optionRowText f =
      shortPart f.short ++ "--" ++ f.flagName ++ "  " ++ placeholderOf f.ty ++ "  "
        ++ "(default: xxxxxx)") ∧
    (envRowText ns f =
      envKeyFull ns f ++ "  " ++ placeholderOf f.ty ++ "  " ++ "(default: xxxxxx)") := by
  constructor <;> simp [optionRowText, envRowText, defaultNote, h1, h2]

/-- Witness for C10: a masked password field with default "password"
renders its OPTIONS line and its ENVIRONMENT line with the redaction
marker in the default note. -/
theorem mask_default_usage_law_witness :
    (optionRowText ⟨"password", "PASSWORD", none, .tString,
        ⟨some "password", false, false, true, false⟩⟩ =
      shortPart none ++ "--" ++ "password" ++ "  " ++ placeholderOf .tString ++ "  "
        ++ "(default: xxxxxx)") ∧
    (envRowText "TEST" ⟨"password", "PASSWORD", none, .tString,
        ⟨some "password", false, false, true, false⟩⟩ =
      envKeyFull "TEST" ⟨"password", "PASSWORD", none, .tString,
        ⟨some "password", false, false, true, false⟩⟩
        ++ "  " ++ placeholderOf .tString ++ "  " ++ "(default: xxxxxx)") :=
  mask_default_usage_law "TEST"
    ⟨"password", "PASSWORD", none, .tString, ⟨some "password", false, false, true, false⟩⟩
    "password" rfl rfl

end Conf
